import Mathlib

/-!
Verification of the `boomer-api` request handler (`src/function.py`).

The whole program is one Python function:

  def handler(event, context):
      return {
          "isBase64Encoded": False,
          "statusCode": 200,
          "headers": {'content': 'application/json'},
          "multiValueHeaders": {},
          'body': json.dumps({'message': 'Ok Boomer'})
      }

We embed Python values as an inductive type `PyVal` (dicts keep their
insertion order, as Python 3.7+ dicts do), model `json.dumps` with its
default formatting (separators ", " and ": ", `ensure_ascii=True`), model
`json.loads`-style parsing for the round-trip property, and embed `handler`
directly from the source.
-/

mutual

/-- Embedding of the Python values this program manipulates. -/
inductive PyVal where
  | none
  | bool (b : Bool)
  | int (n : Int)
  | str (s : String)
  | list (xs : PyList)
  | dict (kvs : PyDict)

/-- A Python list of values. -/
inductive PyList where
  | nil
  | cons (x : PyVal) (xs : PyList)

/-- A Python dict, kept as an insertion-ordered association sequence
(Python 3.7+ dicts preserve insertion order). -/
inductive PyDict where
  | nil
  | cons (k : String) (v : PyVal) (kvs : PyDict)

end

/-- Lookup in a Python dict: first binding for the key. -/
def PyDict.lookup : PyDict → String → Option PyVal
  | PyDict.nil, _ => Option.none
  | PyDict.cons k v rest, key => if k = key then Option.some v else PyDict.lookup rest key

/-- Keys of a Python dict, in insertion order. -/
def PyDict.keys : PyDict → List String
  | PyDict.nil => []
  | PyDict.cons k _ rest => k :: PyDict.keys rest

/-- Field access on a Python value: `v[key]` when `v` is a dict. -/
def PyVal.getKey : PyVal → String → Option PyVal
  | PyVal.dict kvs, k => PyDict.lookup kvs k
  | _, _ => Option.none

/-- Keys of a Python value when it is a dict, in insertion order. -/
def PyVal.keys : PyVal → List String
  | PyVal.dict kvs => PyDict.keys kvs
  | _ => []

/-- Whether a Python value is a dict. -/
def PyVal.isDict : PyVal → Bool
  | PyVal.dict _ => true
  | _ => false

/-- One hex digit, lowercase, as emitted by CPython's JSON encoder. -/
def hexDigit (n : Nat) : Char :=
  if n < 10 then Char.ofNat (48 + n) else Char.ofNat (87 + n)

/-- A `\uXXXX` escape for a code unit below 0x10000. -/
def uEscape (n : Nat) : String :=
  "\\u" ++ String.mk [hexDigit (n / 4096 % 16), hexDigit (n / 256 % 16),
                      hexDigit (n / 16 % 16), hexDigit (n % 16)]

/-- How CPython's `json.dumps` (with the default `ensure_ascii=True`) emits
one character of a string: printable ASCII passes through, `"` and `\`
and the short control escapes are backslashed, every other character is
`\uXXXX`-escaped (with a surrogate pair above the BMP). -/
def escapeChar (c : Char) : String :=
  if c = Char.ofNat 34 then "\\\""
  else if c = Char.ofNat 92 then "\\\\"
  else if c = Char.ofNat 10 then "\\n"
  else if c = Char.ofNat 9 then "\\t"
  else if c = Char.ofNat 13 then "\\r"
  else if c = Char.ofNat 8 then "\\b"
  else if c = Char.ofNat 12 then "\\f"
  else if c.toNat < 32 then uEscape c.toNat
  else if c.toNat < 127 then String.singleton c
  else if c.toNat ≤ 0xFFFF then uEscape c.toNat
  else
    uEscape (0xD800 + (c.toNat - 0x10000) / 1024) ++
      uEscape (0xDC00 + (c.toNat - 0x10000) % 1024)

/-- JSON encoding of a Python string, `json.dumps` style. -/
def encodeString (s : String) : String :=
  "\"" ++ String.join (s.data.map escapeChar) ++ "\""

mutual

/-- Model of Python `json.dumps` with default arguments: separators
", " and ": ", no pretty-printing, `ensure_ascii=True`. -/
def dumps : PyVal → String
  | PyVal.none => "null"
  | PyVal.bool true => "true"
  | PyVal.bool false => "false"
  | PyVal.int n => toString n
  | PyVal.str s => encodeString s
  | PyVal.list xs => "[" ++ dumpsElems xs ++ "]"
  | PyVal.dict kvs => "\x7b" ++ dumpsMembers kvs ++ "\x7d"

/-- Elements of a JSON array, separated by ", ". -/
def dumpsElems : PyList → String
  | PyList.nil => ""
  | PyList.cons x PyList.nil => dumps x
  | PyList.cons x xs => dumps x ++ ", " ++ dumpsElems xs

/-- Members of a JSON object, `"key": value` separated by ", ". -/
def dumpsMembers : PyDict → String
  | PyDict.nil => ""
  | PyDict.cons k v PyDict.nil => encodeString k ++ ": " ++ dumps v
  | PyDict.cons k v kvs => encodeString k ++ ": " ++ dumps v ++ ", " ++ dumpsMembers kvs

end

/-- Embedding of `handler` from `src/function.py`, line for line: both
arguments are ignored and a fresh five-field envelope is returned, its
`body` serialized by `dumps` on each call. -/
def handler (event context : PyVal) : PyVal :=
  PyVal.dict (
    PyDict.cons "isBase64Encoded" (PyVal.bool false) (
    PyDict.cons "statusCode" (PyVal.int 200) (
    PyDict.cons "headers" (PyVal.dict (PyDict.cons "content" (PyVal.str "application/json") PyDict.nil)) (
    PyDict.cons "multiValueHeaders" (PyVal.dict PyDict.nil) (
    PyDict.cons "body" (PyVal.str (dumps (PyVal.dict (PyDict.cons "message" (PyVal.str "Ok Boomer") PyDict.nil))))
    PyDict.nil)))))

/-- State-passing embedding of `handler`: the source body is a single
`return` of a literal built from pure operations (`json.dumps` on a
constant), so no statement reads or writes any state outside the freshly
constructed return value and the world `w` threads through unchanged. -/
def handlerSt {σ : Type} (w : σ) (event context : PyVal) : σ × PyVal :=
  (w, handler event context)

/-- Whitespace as accepted by the JSON grammar. -/
def isJsonWs (c : Char) : Bool :=
  c = Char.ofNat 32 || c = Char.ofNat 10 || c = Char.ofNat 9 || c = Char.ofNat 13

/-- Skip JSON whitespace. -/
def skipWs : List Char → List Char
  | [] => []
  | c :: cs => if isJsonWs c then skipWs cs else c :: cs

/-- Value of one hex digit, if any. -/
def hexVal (c : Char) : Option Nat :=
  if 48 ≤ c.toNat ∧ c.toNat ≤ 57 then Option.some (c.toNat - 48)
  else if 97 ≤ c.toNat ∧ c.toNat ≤ 102 then Option.some (c.toNat - 87)
  else if 65 ≤ c.toNat ∧ c.toNat ≤ 70 then Option.some (c.toNat - 55)
  else Option.none

/-- Parse the remainder of a JSON string (the opening quote already
consumed), returning the decoded string and the rest of the input.
Handles the backslash escapes and `\uXXXX` (pairing surrogates as
Python's decoder does); fuel bounds the recursion, one unit per
consumed character. -/
def parseStrBody : Nat → List Char → Option (String × List Char)
  | 0, _ => Option.none
  | _, [] => Option.none
  | fuel + 1, c :: cs =>
    let cont (ch : Char) (rest : List Char) : Option (String × List Char) :=
      match parseStrBody fuel rest with
      | Option.some (s, r) => Option.some (String.singleton ch ++ s, r)
      | Option.none => Option.none
    if c = Char.ofNat 34 then Option.some ("", cs)
    else if c = Char.ofNat 92 then
      match cs with
      | [] => Option.none
      | e :: cs2 =>
        if e = Char.ofNat 34 then cont (Char.ofNat 34) cs2
        else if e = Char.ofNat 92 then cont (Char.ofNat 92) cs2
        else if e = Char.ofNat 47 then cont (Char.ofNat 47) cs2
        else if e = 'b' then cont (Char.ofNat 8) cs2
        else if e = 'f' then cont (Char.ofNat 12) cs2
        else if e = 'n' then cont (Char.ofNat 10) cs2
        else if e = 'r' then cont (Char.ofNat 13) cs2
        else if e = 't' then cont (Char.ofNat 9) cs2
        else if e = 'u' then
          match cs2 with
          | a :: b :: c1 :: d :: cs3 =>
            match hexVal a, hexVal b, hexVal c1, hexVal d with
            | Option.some ha, Option.some hb, Option.some hc, Option.some hd =>
              let n := ha * 4096 + hb * 256 + hc * 16 + hd
              if 0xD800 ≤ n ∧ n ≤ 0xDBFF then
                match cs3 with
                | s1 :: s2 :: a2 :: b2 :: c2 :: d2 :: cs4 =>
                  if s1 = Char.ofNat 92 ∧ s2 = 'u' then
                    match hexVal a2, hexVal b2, hexVal c2, hexVal d2 with
                    | Option.some ha2, Option.some hb2, Option.some hc2, Option.some hd2 =>
                      let m := ha2 * 4096 + hb2 * 256 + hc2 * 16 + hd2
                      if 0xDC00 ≤ m ∧ m ≤ 0xDFFF then
                        cont (Char.ofNat (0x10000 + (n - 0xD800) * 1024 + (m - 0xDC00))) cs4
                      else Option.none
                    | _, _, _, _ => Option.none
                  else Option.none
                | _ => Option.none
              else if 0xDC00 ≤ n ∧ n ≤ 0xDFFF then Option.none
              else cont (Char.ofNat n) cs3
            | _, _, _, _ => Option.none
          | _ => Option.none
        else Option.none
    else if c.toNat < 32 then Option.none
    else cont c cs

/-- Take a leading run of decimal digits. -/
def takeDigits : List Char → List Char × List Char
  | [] => ([], [])
  | c :: cs =>
    if 48 ≤ c.toNat ∧ c.toNat ≤ 57 then
      let (d, r) := takeDigits cs
      (c :: d, r)
    else ([], c :: cs)

/-- Natural number denoted by a digit run. -/
def natOfDigits (ds : List Char) : Nat :=
  ds.foldl (fun a c => a * 10 + (c.toNat - 48)) 0

/-- Parse a JSON number. The model covers the integer forms (which Python
decodes to `int`); a fraction or exponent makes the parse fail since the
embedding has no float values — the program never serializes one. -/
def parseNum (cs : List Char) : Option (PyVal × List Char) :=
  let (neg, cs1) :=
    match cs with
    | c :: r => if c = Char.ofNat 45 then (true, r) else (false, cs)
    | [] => (false, cs)
  match takeDigits cs1 with
  | ([], _) => Option.none
  | (ds, rest) =>
    if 1 < ds.length ∧ ds.headD '0' = '0' then Option.none
    else
      match rest with
      | c :: _ =>
        if c = Char.ofNat 46 ∨ c = 'e' ∨ c = 'E' then Option.none
        else
          let n : Int := Int.ofNat (natOfDigits ds)
          Option.some (PyVal.int (if neg then -n else n), rest)
      | [] =>
        let n : Int := Int.ofNat (natOfDigits ds)
        Option.some (PyVal.int (if neg then -n else n), rest)

mutual

/-- Recursive-descent parse of one JSON value; fuel bounds the nesting,
one unit per recursion into `parseValue`. -/
def parseValue : Nat → List Char → Option (PyVal × List Char)
  | 0, _ => Option.none
  | fuel + 1, cs =>
    match skipWs cs with
    | [] => Option.none
    | c :: rest =>
      if c = Char.ofNat 123 then
        match skipWs rest with
        | c2 :: rest2 =>
          if c2 = Char.ofNat 125 then Option.some (PyVal.dict PyDict.nil, rest2)
          else parseMembers fuel (c2 :: rest2)
        | [] => Option.none
      else if c = Char.ofNat 91 then
        match skipWs rest with
        | c2 :: rest2 =>
          if c2 = Char.ofNat 93 then Option.some (PyVal.list PyList.nil, rest2)
          else parseElems fuel (c2 :: rest2)
        | [] => Option.none
      else if c = Char.ofNat 34 then
        match parseStrBody (rest.length + 1) rest with
        | Option.some (s, r) => Option.some (PyVal.str s, r)
        | Option.none => Option.none
      else if c = 't' then
        match rest with
        | 'r' :: 'u' :: 'e' :: r => Option.some (PyVal.bool true, r)
        | _ => Option.none
      else if c = 'f' then
        match rest with
        | 'a' :: 'l' :: 's' :: 'e' :: r => Option.some (PyVal.bool false, r)
        | _ => Option.none
      else if c = 'n' then
        match rest with
        | 'u' :: 'l' :: 'l' :: r => Option.some (PyVal.none, r)
        | _ => Option.none
      else parseNum (c :: rest)

/-- Parse the members of a JSON object after its `\x7b` (when it is not
empty), up to and including the closing brace. -/
def parseMembers : Nat → List Char → Option (PyVal × List Char)
  | 0, _ => Option.none
  | fuel + 1, cs =>
    match skipWs cs with
    | c :: rest =>
      if c = Char.ofNat 34 then
        match parseStrBody (rest.length + 1) rest with
        | Option.some (k, r1) =>
          match skipWs r1 with
          | c2 :: r2 =>
            if c2 = Char.ofNat 58 then
              match parseValue fuel r2 with
              | Option.some (v, r3) =>
                match skipWs r3 with
                | c4 :: r4 =>
                  if c4 = Char.ofNat 44 then
                    match parseMembers fuel r4 with
                    | Option.some (PyVal.dict kvs, r5) =>
                      Option.some (PyVal.dict (PyDict.cons k v kvs), r5)
                    | _ => Option.none
                  else if c4 = Char.ofNat 125 then
                    Option.some (PyVal.dict (PyDict.cons k v PyDict.nil), r4)
                  else Option.none
                | [] => Option.none
              | Option.none => Option.none
            else Option.none
          | [] => Option.none
        | Option.none => Option.none
      else Option.none
    | [] => Option.none

/-- Parse the elements of a JSON array after its `[` (when it is not
empty), up to and including the closing bracket. -/
def parseElems : Nat → List Char → Option (PyVal × List Char)
  | 0, _ => Option.none
  | fuel + 1, cs =>
    match parseValue fuel cs with
    | Option.some (v, r1) =>
      match skipWs r1 with
      | c2 :: r2 =>
        if c2 = Char.ofNat 44 then
          match parseElems fuel r2 with
          | Option.some (PyVal.list xs, r3) =>
            Option.some (PyVal.list (PyList.cons v xs), r3)
          | _ => Option.none
        else if c2 = Char.ofNat 93 then
          Option.some (PyVal.list (PyList.cons v PyList.nil), r2)
        else Option.none
      | [] => Option.none
    | Option.none => Option.none

end

/-- Model of Python `json.loads`: parse one JSON value and require only
trailing whitespace after it. -/
def loads (s : String) : Option PyVal :=
  match parseValue (s.data.length + 1) s.data with
  | Option.some (v, rest) =>
    match skipWs rest with
    | [] => Option.some v
    | _ :: _ => Option.none
  | Option.none => Option.none

/-- Claim C1: for every pair of inputs, the envelope returned by `handler`
has `statusCode = 200`. -/
theorem handler_statusCode (event context : PyVal) :
    (handler event context).getKey "statusCode" = Option.some (PyVal.int 200) := by
  rfl

/-- Claim C2: for every pair of inputs, the `body` field is exactly the
string `{"message": "Ok Boomer"}` (with the braces), which is the output
of `dumps` with default formatting on the one-key object, and parsing that
string back as JSON yields exactly that object. -/
theorem handler_body (event context : PyVal) :
    (handler event context).getKey "body" =
      Option.some (PyVal.str "\x7b\"message\": \"Ok Boomer\"\x7d") ∧
    (handler event context).getKey "body" =
      Option.some (PyVal.str
        (dumps (PyVal.dict (PyDict.cons "message" (PyVal.str "Ok Boomer") PyDict.nil)))) ∧
    loads "\x7b\"message\": \"Ok Boomer\"\x7d" =
      Option.some (PyVal.dict (PyDict.cons "message" (PyVal.str "Ok Boomer") PyDict.nil)) :=
  ⟨rfl, rfl, rfl⟩

/-- Claim C3: for every pair of inputs, the `headers` field is the
one-entry mapping with literal key `content` (not `Content-Type`) and
value `application/json`, and `multiValueHeaders` is the empty mapping. -/
theorem handler_headers (event context : PyVal) :
    (handler event context).getKey "headers" =
      Option.some (PyVal.dict (PyDict.cons "content" (PyVal.str "application/json") PyDict.nil)) ∧
    (handler event context).getKey "multiValueHeaders" =
      Option.some (PyVal.dict PyDict.nil) :=
  ⟨rfl, rfl⟩

/-- Claim C4: for every pair of inputs, the `isBase64Encoded` field of the
returned envelope is the boolean `false`. -/
theorem handler_isBase64Encoded (event context : PyVal) :
    (handler event context).getKey "isBase64Encoded" = Option.some (PyVal.bool false) := by
  rfl

/-- Claim C5: any two invocations, with arbitrary and possibly different
inputs, return identical envelopes in every field; the output does not
depend on the inputs in any way. -/
theorem handler_input_independent (event1 context1 event2 context2 : PyVal) :
    handler event1 context1 = handler event2 context2 := by
  rfl

/-- Claim C6: `handler` is total over all inputs — it is a total function
in the embedding (no `Option`/`Except` needed, since the body inspects
neither argument and performs no fallible operation) and returns a dict
envelope for every pair of inputs, Python `None` (`PyVal.none`) included,
always equal to the one returned on `None, None`. -/
theorem handler_total (event context : PyVal) :
    (handler event context).isDict = true ∧
    handler event context = handler PyVal.none PyVal.none :=
  ⟨rfl, rfl⟩

/-- Claim C7: on empty-dict inputs, `handler` returns exactly the envelope
with `isBase64Encoded = false`, `statusCode = 200`,
`headers = (content -> application/json)`, empty `multiValueHeaders`, and
body string `{"message": "Ok Boomer"}`. -/
theorem handler_empty_inputs :
    handler (PyVal.dict PyDict.nil) (PyVal.dict PyDict.nil) =
      PyVal.dict (
        PyDict.cons "isBase64Encoded" (PyVal.bool false) (
        PyDict.cons "statusCode" (PyVal.int 200) (
        PyDict.cons "headers"
          (PyVal.dict (PyDict.cons "content" (PyVal.str "application/json") PyDict.nil)) (
        PyDict.cons "multiValueHeaders" (PyVal.dict PyDict.nil) (
        PyDict.cons "body" (PyVal.str "\x7b\"message\": \"Ok Boomer\"\x7d")
        PyDict.nil))))) := by
  rfl

/-- Claim C8: `handler` has no side effects: in the state-passing
embedding the outside world is returned unchanged for every input, the
result is exactly the pure value of `handler`, and repeating the
invocation from the resulting state changes nothing and returns an equal
envelope (idempotence); the arguments are values in the embedding and so
are unchanged by construction. -/
theorem handler_no_side_effects (σ : Type) (w : σ) (event context : PyVal) :
    (handlerSt w event context).1 = w ∧
    (handlerSt w event context).2 = handler event context ∧
    handlerSt (handlerSt w event context).1 event context = handlerSt w event context :=
  ⟨rfl, rfl, rfl⟩

/-- Claim C9: for every pair of inputs, the returned envelope has exactly
the five fields `isBase64Encoded`, `statusCode`, `headers`,
`multiValueHeaders`, `body` — none missing, none extra, none repeated. -/
theorem handler_exact_fields (event context : PyVal) :
    (handler event context).keys.Nodup ∧
    ∀ k, k ∈ (handler event context).keys ↔
      (k = "isBase64Encoded" ∨ k = "statusCode" ∨ k = "headers" ∨
        k = "multiValueHeaders" ∨ k = "body") := by
  constructor
  · show (["isBase64Encoded", "statusCode", "headers", "multiValueHeaders", "body"] :
      List String).Nodup
    decide
  · intro k
    show k ∈ ["isBase64Encoded", "statusCode", "headers", "multiValueHeaders", "body"] ↔ _
    simp

/-- Claim C10: the keys of the returned envelope occur in the fixed
insertion order `isBase64Encoded, statusCode, headers, multiValueHeaders,
body` on every invocation (the embedding's dicts record Python's
insertion order). -/
theorem handler_key_order (event context : PyVal) :
    (handler event context).keys =
      ["isBase64Encoded", "statusCode", "headers", "multiValueHeaders", "body"] := by
  rfl
